import Mathlib

/-!
Shallow embedding of the AFAC airport-statistics reporting scripts
(`tendencia.py`, `script.py`, `comparacion_anual.py`, `top40.py`, `top50.py`).

Pandas operations are modelled over explicit lists:
* a DataFrame of input rows is a `List` of record structures mirroring the
  CSV schema each script reads;
* `Series.unique()` is `unicos` (first-appearance order, like pandas);
* `pd.concat` of a list of frames is `concatenar` plus column alignment
  (`alinear`), where a column absent from a fragment becomes a missing
  (`Option.none`, i.e. NaN) cell — `pd.concat` of an *empty* list raises,
  modelled by `Option.none` at the call site in `extraer_series_de_tiempo`;
* `pivot_table(..., aggfunc="sum", fill_value=0)` is `pivotar` (row and
  column keys sorted ascending, as pandas sorts group keys), and the
  `top50.py` variant *without* `fill_value` is `pivotarOpt`, whose absent
  combinations are `none` instead of `0`;
* `datetime(anio, mes, 1)` is order-embedded into `Nat` as `anio * 12 + (mes-1)`;
* `rolling(12).mean()` is `mediaMovil` (trailing window, first `k-1`
  positions undefined, pandas' default `min_periods = window`).
-/

namespace Afac

/-- `Series.str.contains`: `pat` occurs as a contiguous substring. -/
def esPrefijoDe : List Char → List Char → Bool
  | [], _ => true
  | _ :: _, [] => false
  | c :: cs, d :: ds => c == d && esPrefijoDe cs ds

/-- Auxiliary scan for substring containment. -/
def contieneAux (pat : List Char) : List Char → Bool
  | [] => pat.isEmpty
  | c :: s => esPrefijoDe pat (c :: s) || contieneAux pat s

/-- `s.str.contains(pat)` on a single cell. -/
def strContiene (s pat : String) : Bool :=
  contieneAux pat.toList s.toList

/-- `Series.unique()`: distinct values in order of first appearance. -/
def unicos {α : Type} [DecidableEq α] : List α → List α
  | [] => []
  | x :: xs => x :: (unicos xs).filter (fun y => decide (y ≠ x))

/-- `pd.concat` of per-year fragments: list concatenation of row lists. -/
def concatenar {α β : Type} (f : α → List β) : List α → List β
  | [] => []
  | x :: xs => f x ++ concatenar f xs

/-- Lexicographic strictly-less on character lists, by code point. -/
def ltChars : List Char → List Char → Bool
  | [], [] => false
  | [], _ :: _ => true
  | _ :: _, [] => false
  | c :: cs, d :: ds =>
    if c.toNat < d.toNat then true
    else if d.toNat < c.toNat then false
    else ltChars cs ds

/-- Ascending (non-strict) order on strings by code point, used for
pandas' sorted group keys. -/
def ordenStr (a b : String) : Prop := ltChars b.data a.data = false

instance : DecidableRel ordenStr := fun a b =>
  inferInstanceAs (Decidable (ltChars b.data a.data = false))

/-! ## Time-Series Synthesizer (`extraer_series_de_tiempo` in `tendencia.py` / `script.py`)

Input schema ("data.csv" / "AFAC.csv"): one row per
(airport, OPCIONES, TIPO, year) with twelve month columns `ENE/JAN` … `DIC/DEC`.
The month columns are kept positionally (index 0 = `ENE/JAN` = month 1 …
index 11 = `DIC/DEC` = month 12), exactly the insertion order of the `MESES`
dictionary used to select and relabel them. -/

/-- A row of the wide AFAC CSV read by `tendencia.py` / `script.py`. -/
structure RegistroMensual where
  aeropuerto : String
  opciones : String
  tipo : String
  anio : Nat
  /-- The twelve month columns `ENE/JAN` … `DIC/DEC`, positionally. -/
  valores : List Int
deriving DecidableEq, Repr

/-- `datetime(anio, mes, 1)` order-embedded into `Nat`; `m` is 0-based
(position of the month column), so the timestamp is `anio * 12 + m`. -/
def ts (anio m : Nat) : Nat := anio * 12 + m

/-- A row of a synthesized frame: a timestamp and one cell per column,
`none` standing for NaN (a column absent from this row's year fragment). -/
structure Fila where
  fecha : Nat
  celdas : List (String × Option Int)
deriving DecidableEq, Repr

/-- Column lookup on a row (`find?` on the association list). A missing
column and a NaN cell both read as `none`. -/
def buscarCelda (celdas : List (String × Option Int)) (c : String) : Option Int :=
  match celdas.find? (fun p => p.1 == c) with
  | some p => p.2
  | none => none

/-- `df[df["AEROPUERTO / AIRPORT"] == aeropuerto]` then
`df[df["OPCIONES/ OPTIONS"].str.contains(tipo)]`. -/
def filtrar (df : List RegistroMensual) (aeropuerto tipoOpcion : String) :
    List RegistroMensual :=
  (df.filter (fun r => r.aeropuerto == aeropuerto)).filter
    (fun r => strContiene r.opciones tipoOpcion)

/-- Cell of the grouped-and-transposed year fragment: the sum of month
column `m` over the year's records of origin `t`
(`groupby("TIPO/ TYPE").sum()` then `transpose()`). -/
def celdaTipoMes (rs : List RegistroMensual) (t : String) (m : Nat) : Int :=
  ((rs.filter (fun r => r.tipo == t)).map (fun r => r.valores.getD m 0)).sum

/-- One year's fragment: select the year's rows, group by `TIPO/ TYPE`
(pandas sorts the group keys ascending), keep the twelve month columns and
transpose, then map the index to timestamps `datetime(anio, MESES[x], 1)`. -/
def fragmentoAnio (rs : List RegistroMensual) (anio : Nat) : List Fila :=
  let rsA := rs.filter (fun r => r.anio == anio)
  let tipos := List.insertionSort ordenStr
    (unicos (rsA.map (fun r => r.tipo)))
  (List.range 12).map (fun m =>
    { fecha := ts anio m
      celdas := tipos.map (fun t => (t, some (celdaTipoMes rsA t m))) })

/-- Union of the column labels of all fragments, in order of first
appearance (`pd.concat`'s column alignment with `sort=False`). -/
def columnasDe (filas : List Fila) : List String :=
  unicos (concatenar (fun f => f.celdas.map (fun p => p.1)) filas)

/-- Align one row to the full column list: a column the row lacks becomes a
NaN (`none`) cell, as `pd.concat` does. -/
def alinear (cols : List String) (f : Fila) : Fila :=
  { fecha := f.fecha, celdas := cols.map (fun c => (c, buscarCelda f.celdas c)) }

/-- `final.sum(axis=1)`: row sum across columns, skipping NaN
(pandas `skipna=True`, empty sum is 0). -/
def totalFila (f : Fila) : Int :=
  (f.celdas.map (fun p => p.2.getD 0)).sum

/-- Column assignment `df[c] = v`: overwrite the column in place if it
exists, else append it. -/
def asignarCelda (celdas : List (String × Option Int)) (c : String) (v : Option Int) :
    List (String × Option Int) :=
  if celdas.any (fun p => p.1 == c) then
    celdas.map (fun p => if p.1 == c then (c, v) else p)
  else
    celdas ++ [(c, v)]

/-- `final["total"] = final.sum(axis=1)` on one row. -/
def agregarTotal (f : Fila) : Fila :=
  { fecha := f.fecha, celdas := asignarCelda f.celdas "total" (some (totalFila f)) }

/-- The concatenated and column-aligned frame, before the total column is
added: everything of `extraer_series_de_tiempo` up to `pd.concat(lista_df)`. -/
def preAlineado (df : List RegistroMensual) (aeropuerto tipoOpcion : String) :
    List Fila :=
  let dfF := filtrar df aeropuerto tipoOpcion
  let anios := unicos (dfF.map (fun r => r.anio))
  let fragmentos := concatenar (fragmentoAnio dfF) anios
  fragmentos.map (alinear (columnasDe fragmentos))

/-- `extraer_series_de_tiempo(df, aeropuerto, tipo)`. `none` models the
`ValueError` that `pd.concat` raises when the year loop produced no
fragment (zero rows matched the filters). The final step drops the rows
whose `total` column is 0 (`final[final["total"] != 0]`). -/
def extraer_series_de_tiempo (df : List RegistroMensual)
    (aeropuerto tipoOpcion : String) : Option (List Fila) :=
  let dfF := filtrar df aeropuerto tipoOpcion
  let anios := unicos (dfF.map (fun r => r.anio))
  if anios.isEmpty then none
  else
    some (((preAlineado df aeropuerto tipoOpcion).map agregarTotal).filter
      (fun f => decide (buscarCelda f.celdas "total" ≠ some 0)))

/-! ## Filter & Reshape Engine (`pivot_table`) -/

/-- A reshaped table: row keys, column keys and the cell matrix
(`valores[i][j]` is the cell at row `filas[i]`, column `columnas[j]`). -/
structure Pivote (ρ κ ν : Type) where
  filas : List ρ
  columnas : List κ
  valores : List (List ν)
deriving DecidableEq, Repr

/-- Sum of the `values` field over the records hitting cell `(r, k)`. -/
def celdaSuma {α ρ κ : Type} [DecidableEq ρ] [DecidableEq κ]
    (rfn : α → ρ) (cfn : α → κ) (vfn : α → Int) (rs : List α) (r : ρ) (k : κ) : Int :=
  ((rs.filter (fun x => decide (rfn x = r) && decide (cfn x = k))).map vfn).sum

/-- `pivot_table(index=…, columns=…, values=…, aggfunc="sum", fill_value=0)`:
row and column keys are the distinct key values sorted ascending (pandas
sorts group keys), and a cell with no matching record is filled with 0
(the sum over an empty selection). -/
def pivotar {α ρ κ : Type} [DecidableEq ρ] [DecidableEq κ]
    (rfn : α → ρ) (cfn : α → κ) (vfn : α → Int)
    (rord : ρ → ρ → Prop) [DecidableRel rord]
    (cord : κ → κ → Prop) [DecidableRel cord] (rs : List α) : Pivote ρ κ Int :=
  let filas := List.insertionSort rord (unicos (rs.map rfn))
  let columnas := List.insertionSort cord (unicos (rs.map cfn))
  ⟨filas, columnas, filas.map (fun r => columnas.map (fun k => celdaSuma rfn cfn vfn rs r k))⟩

/-- Cell of a `pivot_table` *without* `fill_value`: a combination with no
matching record stays NaN (`none`). -/
def celdaSumaOpt {α ρ κ : Type} [DecidableEq ρ] [DecidableEq κ]
    (rfn : α → ρ) (cfn : α → κ) (vfn : α → Int) (rs : List α) (r : ρ) (k : κ) :
    Option Int :=
  let sel := rs.filter (fun x => decide (rfn x = r) && decide (cfn x = k))
  if sel.isEmpty then none else some ((sel.map vfn).sum)

/-- `pivot_table(index=…, columns=…, values=…, aggfunc="sum")` with no
`fill_value`, as in `top50.py`. -/
def pivotarOpt {α ρ κ : Type} [DecidableEq ρ] [DecidableEq κ]
    (rfn : α → ρ) (cfn : α → κ) (vfn : α → Int)
    (rord : ρ → ρ → Prop) [DecidableRel rord]
    (cord : κ → κ → Prop) [DecidableRel cord] (rs : List α) :
    Pivote ρ κ (Option Int) :=
  let filas := List.insertionSort rord (unicos (rs.map rfn))
  let columnas := List.insertionSort cord (unicos (rs.map cfn))
  ⟨filas, columnas,
    filas.map (fun r => columnas.map (fun k => celdaSumaOpt rfn cfn vfn rs r k))⟩

/-! ## `comparacion_anual.py` -/

/-- A row of the long-format CSV read by `comparacion_anual.py`
(`FECHA` index split into year and 1-based month, `AEROPUERTO`, `OPCIONES`,
`TOTAL`). -/
structure RegistroFecha where
  aeropuerto : String
  opciones : String
  anio : Nat
  mes : Nat
  total : Int
deriving DecidableEq, Repr

/-- The three filters of `comparacion_anual.main`: airport equality, option
equality, and `df.index.year.isin([primer_anio, segundo_anio])`. -/
def filtrarC (df : List RegistroFecha) (aeropuerto opcion : String)
    (primer_anio segundo_anio : Nat) : List RegistroFecha :=
  ((df.filter (fun r => r.aeropuerto == aeropuerto)).filter
      (fun r => r.opciones == opcion)).filter
    (fun r => r.anio == primer_anio || r.anio == segundo_anio)

/-- The month × year pivot of `comparacion_anual.main`
(`index=df.index.month, columns=df.index.year, values="TOTAL",
aggfunc="sum", fill_value=0`). -/
def pivotC (rs : List RegistroFecha) : Pivote Nat Nat Int :=
  pivotar (fun r => r.mes) (fun r => r.anio) (fun r => r.total)
    (· ≤ ·) (· ≤ ·) rs

/-- The fixed list assigned by `df.index = MESES`. -/
def MESES_nombres : List String :=
  ["Ene.", "Feb.", "Mar.", "Abr.", "May.", "Jun.",
   "Jul.", "Ago.", "Sep.", "Oct.", "Nov.", "Dic."]

/-- `df.index = MESES`: pandas raises a length-mismatch `ValueError`
(modelled by `none`) unless the table has exactly as many rows as the
12-element month-name list. -/
def reetiquetar (p : Pivote Nat Nat Int) : Option (Pivote String Nat Int) :=
  if p.filas.length = MESES_nombres.length then
    some ⟨MESES_nombres, p.columnas, p.valores⟩
  else none

/-- Sum of all cells of a reshaped table. -/
def sumaMatriz {ρ κ : Type} (p : Pivote ρ κ Int) : Int :=
  (p.valores.map (fun fila => fila.sum)).sum

/-- Sum of column `j` of a reshaped table. -/
def sumaColumna {ρ κ : Type} (p : Pivote ρ κ Int) (j : Nat) : Int :=
  (p.valores.map (fun fila => fila.getD j 0)).sum

/-! ## `top40.py` and `top50.py` -/

/-- A row of the long-format CSV read by `top40.py` (year taken from the
parsed `PERIODO` date) and `top50.py` (`AÑO / YEAR` column); both carry
airport, origin (`TIPO`), option and a numeric `TOTAL`. -/
structure RegistroAnual where
  aeropuerto : String
  tipo : String
  opciones : String
  anio : Nat
  total : Int
deriving DecidableEq, Repr

/-- The two filters of `top40.main`: `df["PERIODO"].dt.year == año` and
`df["OPCIONES"] == opcion`. -/
def filtrar40 (df : List RegistroAnual) (anio : Nat) (opcion : String) :
    List RegistroAnual :=
  (df.filter (fun r => r.anio == anio)).filter (fun r => r.opciones == opcion)

/-- The airport × origin pivot of `top40.main`
(`index="AEROPUERTO", columns="TIPO", values="TOTAL", aggfunc="sum",
fill_value=0`). -/
def pivot40 (rs : List RegistroAnual) : Pivote String String Int :=
  pivotar (fun r => r.aeropuerto) (fun r => r.tipo) (fun r => r.total)
    ordenStr ordenStr rs

/-- The row totals of `top40.main` after `df["TOTAL"] = df.sum(axis=1)` and
the zero filter `df = df[df["TOTAL"] != 0]`. Every value of this list (and
their maximum) is then passed to `np.log10` to build the `ratio` column. -/
def argumentosLog40 (df : List RegistroAnual) (anio : Nat) (opcion : String) :
    List Int :=
  (((pivot40 (filtrar40 df anio opcion)).valores.map
      (fun fila => fila.sum)).filter (fun t => decide (t ≠ 0)))

/-- The two filters of `top50.main`: `df["AÑO / YEAR"] == año` and the
option-specific equality filter on `OPCIONES/ OPTIONS` (the string chosen
by the `if opcion == …` dispatch). -/
def filtrar50 (df : List RegistroAnual) (anio : Nat) (opcionCol : String) :
    List RegistroAnual :=
  (df.filter (fun r => r.anio == anio)).filter (fun r => r.opciones == opcionCol)

/-- The airport × origin pivot of `top50.main`
(`index="AEROPUERTO / AIRPORT", columns="TIPO/ TYPE", values="TOTAL/TOTAL",
aggfunc="sum"` — note: *no* `fill_value`). -/
def pivot50 (rs : List RegistroAnual) : Pivote String String (Option Int) :=
  pivotarOpt (fun r => r.aeropuerto) (fun r => r.tipo) (fun r => r.total)
    ordenStr ordenStr rs

/-- `df.sum(axis=1)` over a row with possibly-NaN cells: pandas skips NaN
and sums the defined cells (an all-NaN row sums to 0). -/
def totalFilaOpt (fila : List (Option Int)) : Int :=
  (fila.map (fun c => c.getD 0)).sum

/-- The row totals of `top50.main` after `df["total"] = df.sum(axis=1)`.
`top50.py` applies `np.log10` to every one of these values (and their
maximum) with no zero filter in between. -/
def argumentosLog50 (df : List RegistroAnual) (anio : Nat) (opcionCol : String) :
    List Int :=
  (pivot50 (filtrar50 df anio opcionCol)).valores.map totalFilaOpt

/-! ## Smoothing (`rolling(12).mean()` in `script.py`) -/

/-- Arithmetic mean of a list of rationals. -/
def promedio (l : List ℚ) : ℚ := l.sum / (l.length : ℚ)

/-- `Series.rolling(k).mean()`: same length as the input, trailing window
of the `k` values ending at each position, undefined (`none`, i.e. NaN)
while fewer than `k` values are available (pandas' default
`min_periods = window`). -/
def mediaMovil (k : Nat) (l : List ℚ) : List (Option ℚ) :=
  (List.range l.length).map (fun i =>
    if k ≤ i + 1 then some (promedio ((l.take (i + 1)).drop (i + 1 - k)))
    else none)

/-! ## Concrete inputs used as test vectors below -/

/-- Wide-format rows whose years are encountered in non-chronological order
(2024 before 2023), every month reporting 1 passenger. -/
def dfDesordenado : List RegistroMensual :=
  [⟨"A", "PASAJEROS/PASSENGERS", "NACIONAL/DOMESTIC", 2024,
      [1, 1, 1, 1, 1, 1, 1, 1, 1, 1, 1, 1]⟩,
   ⟨"A", "PASAJEROS/PASSENGERS", "NACIONAL/DOMESTIC", 2023,
      [1, 1, 1, 1, 1, 1, 1, 1, 1, 1, 1, 1]⟩]

/-- The same rows with the years encountered chronologically. -/
def dfOrdenado : List RegistroMensual :=
  [⟨"A", "PASAJEROS/PASSENGERS", "NACIONAL/DOMESTIC", 2023,
      [1, 1, 1, 1, 1, 1, 1, 1, 1, 1, 1, 1]⟩,
   ⟨"A", "PASAJEROS/PASSENGERS", "NACIONAL/DOMESTIC", 2024,
      [1, 1, 1, 1, 1, 1, 1, 1, 1, 1, 1, 1]⟩]

/-- One wide-format row for an airport with domestic traffic only: the
`INTERNACIONAL/ INTERNATIONAL` origin never appears. -/
def dfSoloNacional : List RegistroMensual :=
  [⟨"A", "PASAJEROS/PASSENGERS", "NACIONAL/DOMESTIC", 2020,
      [1, 0, 0, 0, 0, 0, 0, 0, 0, 0, 0, 0]⟩]

/-- A non-empty dataset in which no row matches airport "A". -/
def dfOtroAeropuerto : List RegistroMensual :=
  [⟨"B", "PASAJEROS/PASSENGERS", "NACIONAL/DOMESTIC", 2020,
      [1, 1, 1, 1, 1, 1, 1, 1, 1, 1, 1, 1]⟩]

/-- The spec's scenario: ACAPULCO passenger records for 2023 and 2024, one
record per month, with monthly totals summing to 100,000 and 120,000. -/
def escenarioAcapulco : List RegistroFecha :=
  (List.range 12).map (fun m =>
    ⟨"ACAPULCO", "PASAJEROS", 2023, m + 1, if m = 11 then 12000 else 8000⟩) ++
  (List.range 12).map (fun m => ⟨"ACAPULCO", "PASAJEROS", 2024, m + 1, 10000⟩)

/-- Long-format rows for two airports, each reporting a single origin, so
each is absent from the other's origin column. -/
def dfMixto : List RegistroAnual :=
  [⟨"A", "NACIONAL/ DOMESTIC", "OPERACIONES/ FLIGHTS", 2023, 5⟩,
   ⟨"B", "INTERNACIONAL/ INTERNATIONAL", "OPERACIONES/ FLIGHTS", 2023, 7⟩]

/-- A long-format row whose `TOTAL/TOTAL` is 0 (such rows occur in the
AFAC data: `top50.py` itself filters on `TOTAL/TOTAL != 0` when collecting
the airports with international traffic). -/
def dfTotalCero : List RegistroAnual :=
  [⟨"A", "NACIONAL/ DOMESTIC", "OPERACIONES/ FLIGHTS", 2023, 0⟩]

/-- A 13-value series used to exercise the rolling mean. -/
def serieEjemplo : List ℚ :=
  (List.range 13).map (fun i => (i : ℚ))

/-! ## Helper lemmas -/

theorem mem_unicos {α : Type} [DecidableEq α] {a : α} :
    ∀ {l : List α}, a ∈ unicos l ↔ a ∈ l := by
  intro l
  induction l with
  | nil => simp [unicos]
  | cons x xs ih =>
    by_cases hax : a = x
    · simp [unicos, hax]
    · simp [unicos, hax, List.mem_filter, ih]

theorem nodup_unicos {α : Type} [DecidableEq α] :
    ∀ (l : List α), (unicos l).Nodup := by
  intro l
  induction l with
  | nil => simp [unicos]
  | cons x xs ih =>
    refine List.Nodup.cons ?_ (List.Nodup.filter _ ih)
    intro hx
    have := (List.mem_filter.mp hx).2
    simp at this

theorem mem_concatenar {α β : Type} (f : α → List β) {b : β} :
    ∀ {l : List α}, b ∈ concatenar f l ↔ ∃ a ∈ l, b ∈ f a := by
  intro l
  induction l with
  | nil => simp [concatenar]
  | cons x xs ih => simp [concatenar, ih]

theorem map_concatenar {α β γ : Type} (f : α → List β) (g : β → γ) :
    ∀ (l : List α), (concatenar f l).map g = concatenar (fun a => (f a).map g) l := by
  intro l
  induction l with
  | nil => simp [concatenar]
  | cons x xs ih => simp [concatenar, ih]

theorem suma_division {α : Type} (p : α → Bool) (f : α → Int) :
    ∀ (l : List α),
      ((l.filter p).map f).sum + ((l.filter (fun x => !(p x))).map f).sum
        = (l.map f).sum := by
  intro l
  induction l with
  | nil => simp
  | cons x xs ih =>
    cases hp : p x <;> simp [List.filter_cons, hp] <;> omega

/-- Summing a value field group by group over a duplicate-free key list
that covers every record recovers the total sum. -/
theorem suma_por_llaves {α κ : Type} [DecidableEq κ] (key : α → κ) (f : α → Int) :
    ∀ (ks : List κ), ks.Nodup → ∀ (l : List α), (∀ x ∈ l, key x ∈ ks) →
      ((ks.map (fun k =>
          ((l.filter (fun x => decide (key x = k))).map f).sum)).sum
        = (l.map f).sum) := by
  intro ks
  induction ks with
  | nil =>
    intro _ l hcov
    cases l with
    | nil => simp
    | cons x xs => exact absurd (hcov x (by simp)) (by simp)
  | cons k ks ih =>
    intro hnd l hcov
    have hnd' := List.nodup_cons.mp hnd
    have hterm : ∀ k' ∈ ks,
        l.filter (fun x => decide (key x = k')) =
          (l.filter (fun x => !(decide (key x = k)))).filter
            (fun x => decide (key x = k')) := by
      intro k' hk'
      have hkk : k ≠ k' := fun h => hnd'.1 (h ▸ hk')
      rw [List.filter_filter]
      apply List.filter_congr
      intro x _
      by_cases h : key x = k'
      · have hxk : ¬ key x = k := fun hh => hkk (hh.symm.trans h)
        simp [h, hxk]
        exact Ne.symm hkk
      · simp [h]
    have hrest :
        ((ks.map (fun k' =>
            ((l.filter (fun x => decide (key x = k'))).map f).sum)).sum)
          = (((l.filter (fun x => !(decide (key x = k)))).map f).sum) := by
      rw [List.map_congr_left (fun k' hk' => by rw [hterm k' hk'])]
      apply ih hnd'.2
      intro x hx
      have hxl := List.mem_filter.mp hx
      have := hcov x hxl.1
      simp at this ⊢
      rcases this with h | h
      · exact absurd h (by simpa using hxl.2)
      · exact h
    simp only [List.map_cons, List.sum_cons, hrest]
    exact suma_division (fun x => decide (key x = k)) f l

/-- Sum conservation for `pivot_table(..., aggfunc="sum", fill_value=0)`:
the cells of the reshaped table sum to the `values` field summed over all
pivoted records. -/
theorem sumaMatriz_pivotar {α ρ κ : Type} [DecidableEq ρ] [DecidableEq κ]
    (rfn : α → ρ) (cfn : α → κ) (vfn : α → Int)
    (rord : ρ → ρ → Prop) [DecidableRel rord]
    (cord : κ → κ → Prop) [DecidableRel cord] (rs : List α) :
    sumaMatriz (pivotar rfn cfn vfn rord cord rs) = (rs.map vfn).sum := by
  unfold sumaMatriz pivotar
  simp only [List.map_map, Function.comp]
  have hfnd : (List.insertionSort rord (unicos (rs.map rfn))).Nodup :=
    ((List.perm_insertionSort rord _).nodup_iff).mpr (nodup_unicos _)
  have hcnd : (List.insertionSort cord (unicos (rs.map cfn))).Nodup :=
    ((List.perm_insertionSort cord _).nodup_iff).mpr (nodup_unicos _)
  have hinner : ∀ r : ρ,
      ((List.insertionSort cord (unicos (rs.map cfn))).map
          (fun k => celdaSuma rfn cfn vfn rs r k)).sum
        = ((rs.filter (fun x => decide (rfn x = r))).map vfn).sum := by
    intro r
    have hsplit : ∀ k : κ,
        celdaSuma rfn cfn vfn rs r k =
          (((rs.filter (fun x => decide (rfn x = r))).filter
              (fun x => decide (cfn x = k))).map vfn).sum := by
      intro k
      unfold celdaSuma
      rw [List.filter_filter]
      apply congrArg List.sum
      apply congrArg (List.map vfn)
      apply List.filter_congr
      intro x _
      by_cases h1 : rfn x = r <;> by_cases h2 : cfn x = k <;> simp [h1, h2]
    rw [List.map_congr_left (fun k _ => hsplit k)]
    apply suma_por_llaves cfn vfn _ hcnd
    intro x hx
    rw [(List.perm_insertionSort cord _).mem_iff, mem_unicos]
    exact List.mem_map_of_mem cfn (List.mem_filter.mp hx).1
  refine (congrArg List.sum (List.map_congr_left (fun r _ => hinner r))).trans ?_
  apply suma_por_llaves rfn vfn _ hfnd
  intro x hx
  rw [(List.perm_insertionSort rord _).mem_iff, mem_unicos]
  exact List.mem_map_of_mem rfn hx

theorem buscarCelda_de_no_llave {celdas : List (String × Option Int)} {c : String}
    (h : c ∉ celdas.map (fun p => p.1)) : buscarCelda celdas c = none := by
  induction celdas with
  | nil => rfl
  | cons p ps ih =>
    simp at h
    have hp : (p.1 == c) = false := by
      simp
      exact fun hh => h.1 hh.symm
    unfold buscarCelda
    rw [List.find?_cons_of_neg _ (by simp [hp])]
    exact ih (by simp; exact h.2)

theorem buscarCelda_cons_pos {p : String × Option Int} {c : String}
    (h : p.1 = c) (ps : List (String × Option Int)) :
    buscarCelda (p :: ps) c = p.2 := by
  unfold buscarCelda
  rw [List.find?_cons_of_pos _ (by simp [h])]

theorem buscarCelda_cons_neg {p : String × Option Int} {c : String}
    (h : ¬ p.1 = c) (ps : List (String × Option Int)) :
    buscarCelda (p :: ps) c = buscarCelda ps c := by
  unfold buscarCelda
  rw [List.find?_cons_of_neg _ (by simp [h])]

theorem buscarCelda_sobrescribir {c : String} (v : Option Int) :
    ∀ (cs : List (String × Option Int)), cs.any (fun p => p.1 == c) = true →
      buscarCelda (cs.map (fun p => if p.1 == c then (c, v) else p)) c = v := by
  intro cs
  induction cs with
  | nil => intro h; simp at h
  | cons p ps ih =>
    intro h
    by_cases hpc : p.1 = c
    · rw [List.map_cons, if_pos (by simp [hpc]), buscarCelda_cons_pos rfl]
    · have hbeq : (p.1 == c) = false := by simp [hpc]
      rw [List.any_cons, hbeq, Bool.false_or] at h
      rw [List.map_cons, if_neg (by simp [hpc]), buscarCelda_cons_neg hpc]
      exact ih h

theorem buscarCelda_anexar {c : String} (v : Option Int) :
    ∀ (cs : List (String × Option Int)), (∀ p ∈ cs, p.1 ≠ c) →
      buscarCelda (cs ++ [(c, v)]) c = v := by
  intro cs
  induction cs with
  | nil => intro; rw [List.nil_append, buscarCelda_cons_pos rfl]
  | cons p ps ih =>
    intro h
    rw [List.cons_append, buscarCelda_cons_neg (h p (by simp))]
    exact ih (fun q hq => h q (by simp [hq]))

theorem buscarCelda_asignar (celdas : List (String × Option Int))
    (c : String) (v : Option Int) :
    buscarCelda (asignarCelda celdas c v) c = v := by
  unfold asignarCelda
  split
  · rename_i hany
    exact buscarCelda_sobrescribir v celdas hany
  · rename_i hany
    refine buscarCelda_anexar v celdas ?_
    intro p hp hpc
    exact hany (List.any_eq_true.mpr ⟨p, hp, by simp [hpc]⟩)

theorem llaves_asignar {celdas : List (String × Option Int)} {c c' : String}
    (hne : c' ≠ c) (h : c' ∉ celdas.map (fun p => p.1)) (v : Option Int) :
    c' ∉ (asignarCelda celdas c v).map (fun p => p.1) := by
  unfold asignarCelda
  split
  · intro hcon
    rcases List.mem_map.mp hcon with ⟨q, hq, hq'⟩
    rcases List.mem_map.mp hq with ⟨p, hp, hp'⟩
    by_cases hpc : p.1 = c
    · rw [← hp'] at hq'
      simp [hpc] at hq'
      exact hne hq'.symm
    · rw [← hp'] at hq'
      simp [hpc] at hq'
      exact h (hq' ▸ List.mem_map_of_mem (fun p => p.1) hp)
  · intro hcon
    rw [List.map_append] at hcon
    rcases List.mem_append.mp hcon with hcon | hcon
    · exact h hcon
    · simp at hcon
      exact hne hcon

/-- The timestamps of a year fragment are the twelve month stamps of that
year, in order. -/
theorem fechas_fragmento (rs : List RegistroMensual) (anio : Nat) :
    (fragmentoAnio rs anio).map (fun f => f.fecha)
      = (List.range 12).map (fun m => ts anio m) := by
  unfold fragmentoAnio
  rw [List.map_map]
  rfl

/-- Concatenating twelve-month fragments of strictly increasing years
yields strictly increasing timestamps. -/
theorem pairwise_fechas_concatenar :
    ∀ (anios : List Nat), anios.Pairwise (· < ·) →
      (concatenar (fun a => (List.range 12).map (fun m => ts a m)) anios).Pairwise
        (· < ·) := by
  intro anios
  induction anios with
  | nil =>
    intro
    simp [concatenar]
  | cons a rest ih =>
    intro hpw
    have hpw' := List.pairwise_cons.mp hpw
    unfold concatenar
    rw [List.pairwise_append]
    refine ⟨?_, ih hpw'.2, ?_⟩
    · refine List.Pairwise.map _ ?_ (List.pairwise_lt_range 12)
      intro m m' hmm
      simp [ts]
      omega
    · intro x hx y hy
      rcases List.mem_map.mp hx with ⟨m, hm, hxm⟩
      rcases (mem_concatenar _).mp hy with ⟨a', ha', hy'⟩
      rcases List.mem_map.mp hy' with ⟨m', hm', hym⟩
      have haa : a < a' := hpw'.1 a' ha'
      have hm12 : m < 12 := List.mem_range.mp hm
      rw [← hxm, ← hym]
      simp [ts]
      omega

/-- `getD` through `map`, at an index inside the list. -/
theorem getD_map {α β : Type} (f : α → β) (l : List α) (i : Nat) (d : α) (d' : β)
    (h : i < l.length) : (l.map f).getD i d' = f (l.getD i d) := by
  rw [List.getD_eq_getElem?_getD, List.getElem?_map, List.getD_eq_getElem?_getD,
    List.getElem?_eq_getElem h]
  rfl

/-- `extraer_series_de_tiempo` unfolded into its two branches. -/
theorem extraer_desplegar (df : List RegistroMensual) (a t : String) :
    extraer_series_de_tiempo df a t =
      if (unicos ((filtrar df a t).map (fun r => r.anio))).isEmpty then none
      else some (((preAlineado df a t).map agregarTotal).filter
        (fun f => decide (buscarCelda f.celdas "total" ≠ some 0))) := rfl

theorem extraer_eq_some {df : List RegistroMensual} {a t : String} {out : List Fila}
    (h : extraer_series_de_tiempo df a t = some out) :
    out = ((preAlineado df a t).map agregarTotal).filter
      (fun f => decide (buscarCelda f.celdas "total" ≠ some 0)) := by
  rw [extraer_desplegar] at h
  split at h
  · exact absurd h (by simp)
  · exact (Option.some.inj h).symm

/-- The timestamps of the aligned frame are the per-year month stamps in
the order the years were encountered. -/
theorem fechas_preAlineado (df : List RegistroMensual) (a t : String) :
    (preAlineado df a t).map (fun f => f.fecha)
      = concatenar (fun a' => (List.range 12).map (fun m => ts a' m))
          (unicos ((filtrar df a t).map (fun r => r.anio))) := by
  unfold preAlineado
  rw [List.map_map, map_concatenar]
  congr 1

/-- Every aligned row carries exactly the aligned column list as keys. -/
theorem celdas_preAlineado {df : List RegistroMensual} {a t : String} {f : Fila}
    (hf : f ∈ preAlineado df a t) :
    f.celdas.map (fun p => p.1)
      = columnasDe (concatenar (fragmentoAnio (filtrar df a t))
          (unicos ((filtrar df a t).map (fun r => r.anio)))) := by
  unfold preAlineado at hf
  rcases List.mem_map.mp hf with ⟨g, _, rfl⟩
  unfold alinear
  rw [List.map_map]
  exact List.map_id _

/-- A column label of the concatenated fragments is the origin (`TIPO`) of
some filtered record. -/
theorem mem_columnas_tipo {dfF : List RegistroMensual} {anios : List Nat} {c : String}
    (hc : c ∈ columnasDe (concatenar (fragmentoAnio dfF) anios)) :
    ∃ r ∈ dfF, r.tipo = c := by
  unfold columnasDe at hc
  rw [mem_unicos] at hc
  rcases (mem_concatenar _).mp hc with ⟨f, hfmem, hcf⟩
  rcases (mem_concatenar _).mp hfmem with ⟨a', _, hf'⟩
  unfold fragmentoAnio at hf'
  rcases List.mem_map.mp hf' with ⟨m, _, rfl⟩
  rw [List.map_map] at hcf
  rcases List.mem_map.mp hcf with ⟨tc, htc, hteq⟩
  rw [List.mem_insertionSort, mem_unicos] at htc
  rcases List.mem_map.mp htc with ⟨r, hr, hrt⟩
  refine ⟨r, (List.mem_filter.mp hr).1, ?_⟩
  rw [hrt]
  exact hteq

/-- A cell of `pivotar`, addressed positionally, is the sum over exactly
the records matching its row and column keys. -/
theorem celda_pivotar {α ρ κ : Type} [DecidableEq ρ] [DecidableEq κ]
    (rfn : α → ρ) (cfn : α → κ) (vfn : α → Int)
    (rord : ρ → ρ → Prop) [DecidableRel rord]
    (cord : κ → κ → Prop) [DecidableRel cord] (rs : List α) (i j : Nat)
    (dr : ρ) (dk : κ)
    (hi : i < (pivotar rfn cfn vfn rord cord rs).filas.length)
    (hj : j < (pivotar rfn cfn vfn rord cord rs).columnas.length) :
    (((pivotar rfn cfn vfn rord cord rs).valores.getD i []).getD j 0)
      = celdaSuma rfn cfn vfn rs
          ((pivotar rfn cfn vfn rord cord rs).filas.getD i dr)
          ((pivotar rfn cfn vfn rord cord rs).columnas.getD j dk) := by
  unfold pivotar at hi hj ⊢
  rw [getD_map _ _ _ dr _ hi, getD_map _ _ _ dk _ hj]

/-! ## Claims -/

/-- Claim C1, counterexample: when the source encounters the distinct years
out of chronological order (here 2024 before 2023), the synthesizer returns
a series whose consecutive timestamps are *not* strictly increasing — the
year loop follows `unique()`'s first-appearance order and no sort step
exists, so the claim "consecutive timestamps are strictly increasing, for
every input record collection" is false. -/
theorem c1_contraejemplo :
    (extraer_series_de_tiempo dfDesordenado "A" "PASAJEROS").isSome = true ∧
    ¬ List.Chain' (· < ·)
        (((extraer_series_de_tiempo dfDesordenado "A" "PASAJEROS").getD []).map
          (fun f => f.fecha)) := by
  have hfe : ((extraer_series_de_tiempo dfDesordenado "A" "PASAJEROS").getD []).map
      (fun f => f.fecha) =
      [24288, 24289, 24290, 24291, 24292, 24293, 24294, 24295, 24296, 24297,
       24298, 24299, 24276, 24277, 24278, 24279, 24280, 24281, 24282, 24283,
       24284, 24285, 24286, 24287] := by decide
  refine ⟨by decide, ?_⟩
  rw [hfe]
  intro h
  have h2 := List.chain'_iff_get.mp h 11 (by decide)
  exact absurd h2 (by decide)

/-- Claim C1, amended: the timestamps of every returned series are strictly
increasing *provided* the distinct years of the filtered records, in order
of first appearance, are themselves strictly increasing; the synthesizer
concatenates the per-year fragments in that order and performs no sort. -/
theorem c1_enmendada (df : List RegistroMensual) (a t : String) (out : List Fila)
    (hout : extraer_series_de_tiempo df a t = some out)
    (hord : List.Chain' (· < ·) (unicos ((filtrar df a t).map (fun r => r.anio)))) :
    List.Chain' (· < ·) (out.map (fun f => f.fecha)) := by
  have hsub : List.Sublist (out.map (fun f => f.fecha))
      ((preAlineado df a t).map (fun f => f.fecha)) := by
    rw [extraer_eq_some hout]
    have h1 := List.filter_sublist (l := (preAlineado df a t).map agregarTotal)
      (p := fun f => decide (buscarCelda f.celdas "total" ≠ some 0))
    have h2 := List.Sublist.map (fun f : Fila => f.fecha) h1
    rw [List.map_map] at h2
    exact h2
  have hpw : ((preAlineado df a t).map (fun f => f.fecha)).Pairwise (· < ·) := by
    rw [fechas_preAlineado]
    exact pairwise_fechas_concatenar _ (List.chain'_iff_pairwise.mp hord)
  exact (hpw.sublist hsub).chain'

/-- Claim C1, witness: on records whose years appear chronologically, the
synthesized series has strictly increasing timestamps. -/
theorem c1_testigo :
    List.Chain' (· < ·)
      (((extraer_series_de_tiempo dfOrdenado "A" "PASAJEROS").getD []).map
        (fun f => f.fecha)) :=
  c1_enmendada dfOrdenado "A" "PASAJEROS" _ (by decide)
    (by
      rw [show unicos ((filtrar dfOrdenado "A" "PASAJEROS").map (fun r => r.anio))
          = [2023, 2024] from by decide]
      exact List.chain'_pair.mpr (by decide))

/-- Claim C2, counterexample: for an airport whose filtered records never
report the INTERNATIONAL origin, the synthesizer's output has *no*
`INTERNACIONAL/ INTERNATIONAL` column at all — the groupby-by-origin only
produces columns for origins present — so the claim that an all-zero
INTERNATIONAL column is emitted is false (and the downstream
`data["INTERNACIONAL/ INTERNATIONAL"]` read in `main` fails with a
missing-key error). -/
theorem c2_contraejemplo :
    filtrar dfSoloNacional "A" "PASAJEROS" = dfSoloNacional ∧
    (extraer_series_de_tiempo dfSoloNacional "A" "PASAJEROS").isSome = true ∧
    ((extraer_series_de_tiempo dfSoloNacional "A" "PASAJEROS").getD []).length = 1 ∧
    "INTERNACIONAL/ INTERNATIONAL" ∉
      ((((extraer_series_de_tiempo dfSoloNacional "A" "PASAJEROS").getD []).getD 0
          (Fila.mk 0 [])).celdas.map (fun p => p.1)) := by
  refine ⟨by decide, by decide, by decide, by decide⟩

/-- Claim C2, amended: when the INTERNATIONAL origin never appears among
the filtered records, every row of the synthesized series *lacks* the
`INTERNACIONAL/ INTERNATIONAL` column entirely: the label is not among the
row's column keys and a lookup of it returns nothing (pandas raises
`KeyError`), rather than an all-zero column being emitted. -/
theorem c2_enmendada (df : List RegistroMensual) (a t : String) (out : List Fila)
    (hout : extraer_series_de_tiempo df a t = some out)
    (hint : ∀ r ∈ filtrar df a t, r.tipo ≠ "INTERNACIONAL/ INTERNATIONAL") :
    ∀ f ∈ out,
      "INTERNACIONAL/ INTERNATIONAL" ∉ f.celdas.map (fun p => p.1) ∧
      buscarCelda f.celdas "INTERNACIONAL/ INTERNATIONAL" = none := by
  intro f hf
  rw [extraer_eq_some hout] at hf
  have hf1 := (List.mem_filter.mp hf).1
  rcases List.mem_map.mp hf1 with ⟨g, hg, rfl⟩
  have hnotin : "INTERNACIONAL/ INTERNATIONAL" ∉ g.celdas.map (fun p => p.1) := by
    rw [celdas_preAlineado hg]
    intro hcon
    rcases mem_columnas_tipo hcon with ⟨r, hr, hrt⟩
    exact hint r hr hrt
  have hkeys : "INTERNACIONAL/ INTERNATIONAL" ∉
      (agregarTotal g).celdas.map (fun p => p.1) :=
    llaves_asignar (by decide) hnotin _
  exact ⟨hkeys, buscarCelda_de_no_llave hkeys⟩

/-- Claim C2, witness: instantiation on a domestic-only airport — the lone
returned row reads `none` (missing key) for the INTERNATIONAL column. -/
theorem c2_testigo :
    buscarCelda
      ((((extraer_series_de_tiempo dfSoloNacional "A" "PASAJEROS").getD []).getD 0
          (Fila.mk 0 [])).celdas) "INTERNACIONAL/ INTERNATIONAL" = none := by
  have h := c2_enmendada dfSoloNacional "A" "PASAJEROS"
    ((extraer_series_de_tiempo dfSoloNacional "A" "PASAJEROS").getD [])
    (by decide) (by decide)
  exact (h _ (by decide)).2

/-- Claim C3, counterexample: on a non-empty dataset in which the airport
filter selects zero rows, `extraer_series_de_tiempo` does not return an
empty structure: `pd.concat` of the empty fragment list raises a
`ValueError` (modelled as `none`), so "returns an empty (or all-zero)
structure and does not raise an error" is false. -/
theorem c3_contraejemplo :
    filtrar dfOtroAeropuerto "A" "PASAJEROS" = [] ∧
    extraer_series_de_tiempo dfOtroAeropuerto "A" "PASAJEROS" = none := by
  refine ⟨by decide, by decide⟩

/-- Claim C3, amended: when the filter predicates select zero rows, the
pivot itself does yield an empty table, but the pipelines then fail: the
synthesizer raises on concatenating an empty list of fragments (`none`),
and the year-comparison relabeling `df.index = MESES` raises a
length-mismatch error on the 0-row table (`none`). -/
theorem c3_enmendada :
    (∀ (df : List RegistroMensual) (a t : String),
        filtrar df a t = [] → extraer_series_de_tiempo df a t = none) ∧
    (∀ (df : List RegistroFecha) (a op : String) (y1 y2 : Nat),
        filtrarC df a op y1 y2 = [] →
          pivotC (filtrarC df a op y1 y2) = ⟨[], [], []⟩ ∧
          reetiquetar (pivotC (filtrarC df a op y1 y2)) = none) := by
  constructor
  · intro df a t h
    rw [extraer_desplegar, h]
    rfl
  · intro df a op y1 y2 h
    rw [h]
    exact ⟨rfl, rfl⟩

/-- Claim C3, witness: the amended behaviour on concrete zero-row inputs. -/
theorem c3_testigo :
    extraer_series_de_tiempo dfOtroAeropuerto "A" "PASAJEROS" = none ∧
    reetiquetar (pivotC (filtrarC [] "A" "PASAJEROS" 2023 2024)) = none :=
  ⟨c3_enmendada.1 dfOtroAeropuerto "A" "PASAJEROS" (by decide),
   (c3_enmendada.2 [] "A" "PASAJEROS" 2023 2024 (by decide)).2⟩

/-- Claim C7: no row of a synthesized series has total 0 — the final step
filters on the `total` column, itself the row sum across the origin
columns — and every aligned row whose origin-sum is nonzero is kept (with
its `total` column appended). -/
theorem c7_filtro_total (df : List RegistroMensual) (a t : String) (out : List Fila)
    (hout : extraer_series_de_tiempo df a t = some out) :
    (∀ f ∈ out, buscarCelda f.celdas "total" ≠ some 0) ∧
    (∀ g ∈ preAlineado df a t, totalFila g ≠ 0 → agregarTotal g ∈ out) := by
  have heq := extraer_eq_some hout
  subst heq
  constructor
  · intro f hf
    exact of_decide_eq_true (List.mem_filter.mp hf).2
  · intro g hg hgt
    apply List.mem_filter.mpr
    refine ⟨List.mem_map_of_mem _ hg, ?_⟩
    apply decide_eq_true
    show buscarCelda (asignarCelda g.celdas "total" (some (totalFila g))) "total" ≠ some 0
    rw [buscarCelda_asignar]
    intro hcon
    exact hgt (Option.some.inj hcon)

/-- Claim C7, witness: on a concrete input with a single nonzero month,
that month's aligned row is kept in the returned series. -/
theorem c7_testigo :
    agregarTotal ((preAlineado dfSoloNacional "A" "PASAJEROS").getD 0 (Fila.mk 0 []))
      ∈ ((extraer_series_de_tiempo dfSoloNacional "A" "PASAJEROS").getD []) ∧
    buscarCelda
        ((((extraer_series_de_tiempo dfSoloNacional "A" "PASAJEROS").getD []).getD 0
            (Fila.mk 0 [])).celdas) "total" ≠ some 0 := by
  have h := c7_filtro_total dfSoloNacional "A" "PASAJEROS"
    ((extraer_series_de_tiempo dfSoloNacional "A" "PASAJEROS").getD []) (by decide)
  exact ⟨h.2 _ (by decide) (by decide), h.1 _ (by decide)⟩

/-- Claim C4, counterexample: the `top50.py` pivot omits `fill_value`, so a
(row, column) combination absent from the source stays undefined (`none`,
i.e. NaN) instead of being materialized as 0 — here airport "A" has no
INTERNATIONAL record and airport "B" no DOMESTIC record, and both cells
are missing. So "every pivot … materialized as 0, never left missing" is
false. -/
theorem c4_contraejemplo :
    (pivot50 (filtrar50 dfMixto 2023 "OPERACIONES/ FLIGHTS")).filas = ["A", "B"] ∧
    (pivot50 (filtrar50 dfMixto 2023 "OPERACIONES/ FLIGHTS")).columnas
      = ["INTERNACIONAL/ INTERNATIONAL", "NACIONAL/ DOMESTIC"] ∧
    (pivot50 (filtrar50 dfMixto 2023 "OPERACIONES/ FLIGHTS")).valores
      = [[none, some 5], [some 7, none]] := by
  refine ⟨by decide, by decide, by decide⟩

/-- Claim C4, amended: the pivots built with `fill_value=0` (the year
comparison and `top40.py`) have a defined numeric cell at every (row,
column) position — equal to the sum over the records matching that row and
column key, hence 0 when no source record matches — while the `top50.py`
pivot, built without `fill_value`, leaves absent combinations undefined. -/
theorem c4_enmendada (rs : List RegistroFecha) (rsA : List RegistroAnual)
    (i j : Nat) :
    (i < (pivotC rs).filas.length → j < (pivotC rs).columnas.length →
      ((pivotC rs).valores.getD i []).getD j 0
        = celdaSuma (fun r => r.mes) (fun r => r.anio) (fun r => r.total) rs
            ((pivotC rs).filas.getD i 0) ((pivotC rs).columnas.getD j 0)) ∧
    (rs.filter (fun x => decide (x.mes = (pivotC rs).filas.getD i 0) &&
        decide (x.anio = (pivotC rs).columnas.getD j 0)) = [] →
      celdaSuma (fun r => r.mes) (fun r => r.anio) (fun r => r.total) rs
        ((pivotC rs).filas.getD i 0) ((pivotC rs).columnas.getD j 0) = 0) ∧
    (i < (pivot40 rsA).filas.length → j < (pivot40 rsA).columnas.length →
      ((pivot40 rsA).valores.getD i []).getD j 0
        = celdaSuma (fun r => r.aeropuerto) (fun r => r.tipo) (fun r => r.total)
            rsA ((pivot40 rsA).filas.getD i "")
            ((pivot40 rsA).columnas.getD j "")) := by
  refine ⟨?_, ?_, ?_⟩
  · intro hi hj
    exact celda_pivotar _ _ _ _ _ rs i j 0 0 hi hj
  · intro h
    unfold celdaSuma
    rw [h]
    rfl
  · intro hi hj
    exact celda_pivotar _ _ _ _ _ rsA i j "" "" hi hj

/-- Claim C4, witness: the amended cell law instantiated at cell (0, 0) of
the scenario pivot and of a concrete `top40` pivot. -/
theorem c4_testigo :
    ((pivotC escenarioAcapulco).valores.getD 0 []).getD 0 0
      = celdaSuma (fun r => r.mes) (fun r => r.anio) (fun r => r.total)
          escenarioAcapulco ((pivotC escenarioAcapulco).filas.getD 0 0)
          ((pivotC escenarioAcapulco).columnas.getD 0 0) ∧
    ((pivot40 dfMixto).valores.getD 0 []).getD 0 0
      = celdaSuma (fun r => r.aeropuerto) (fun r => r.tipo) (fun r => r.total)
          dfMixto ((pivot40 dfMixto).filas.getD 0 "")
          ((pivot40 dfMixto).columnas.getD 0 "") :=
  ⟨(c4_enmendada escenarioAcapulco dfMixto 0 0).1 (by decide) (by decide),
   (c4_enmendada escenarioAcapulco dfMixto 0 0).2.2 (by decide) (by decide)⟩

/-- Claim C5, counterexample: `top50.py` computes
`np.log10(df["total"])` with *no* zero filter between the row-total
computation and the logarithm, so a row with total 0 (which the AFAC data
contains) reaches `log10` — 0 is among the values passed to `np.log10`. -/
theorem c5_contraejemplo :
    (0 : Int) ∈ argumentosLog50 dfTotalCero 2023 "OPERACIONES/ FLIGHTS" := by
  decide

/-- Claim C5, amended: the zero-total guard exists in `top40.py` — rows
with total 0 are removed by `df = df[df["TOTAL"] != 0]` before `np.log10`
is applied, so 0 is never among the values it receives there — but not in
`top50.py`, which applies `np.log10` to unfiltered row totals. -/
theorem c5_enmendada (df : List RegistroAnual) (anio : Nat) (op : String) :
    (0 : Int) ∉ argumentosLog40 df anio op := by
  intro h
  have h2 := (List.mem_filter.mp h).2
  simp at h2

/-- Claim C5, witness: the `top40` guard on a concrete dataset. -/
theorem c5_testigo :
    (0 : Int) ∉ argumentosLog40 dfTotalCero 2023 "OPERACIONES/ FLIGHTS" :=
  c5_enmendada dfTotalCero 2023 "OPERACIONES/ FLIGHTS"

/-- Claim C6: sum conservation — the cells of the year-comparison pivot
sum to the `TOTAL` field summed over the filtered records — and the spec's
scenario: ACAPULCO passengers 2023/2024 with monthly totals summing to
100,000 and 120,000 pivot to a 12-row, 2-column table whose column sums
are exactly 100,000 and 120,000. -/
theorem c6_conservacion :
    (∀ (df : List RegistroFecha) (a op : String) (y1 y2 : Nat),
        sumaMatriz (pivotC (filtrarC df a op y1 y2))
          = ((filtrarC df a op y1 y2).map (fun r => r.total)).sum) ∧
    ((pivotC (filtrarC escenarioAcapulco "ACAPULCO" "PASAJEROS" 2023 2024)).filas.length
        = 12 ∧
      (pivotC (filtrarC escenarioAcapulco "ACAPULCO" "PASAJEROS" 2023 2024)).columnas
        = [2023, 2024] ∧
      sumaColumna (pivotC (filtrarC escenarioAcapulco "ACAPULCO" "PASAJEROS" 2023 2024)) 0
        = 100000 ∧
      sumaColumna (pivotC (filtrarC escenarioAcapulco "ACAPULCO" "PASAJEROS" 2023 2024)) 1
        = 120000) :=
  ⟨fun df a op y1 y2 => sumaMatriz_pivotar _ _ _ _ _ _, by decide⟩

/-- Claim C8: for every input series, `rolling(12).mean()` returns a series
of the same length whose first 11 positions are undefined and whose
remaining `n - 11` positions are each the arithmetic mean of the 12 values
ending at (and including) that position. -/
theorem c8_media_movil (l : List ℚ) :
    (mediaMovil 12 l).length = l.length ∧
    (∀ i, i < 11 → (mediaMovil 12 l).getD i none = none) ∧
    (∀ i, 11 ≤ i → i < l.length →
      (mediaMovil 12 l).getD i none
        = some (((l.drop (i - 11)).take 12).sum / 12)) ∧
    (mediaMovil 12 l).countP (fun c => c.isSome) = l.length - 11 := by
  refine ⟨by simp [mediaMovil], ?_, ?_, ?_⟩
  · intro i hi
    unfold mediaMovil
    by_cases hil : i < l.length
    · rw [getD_map _ _ _ 0 _ (by simpa using hil)]
      have hri : (List.range l.length).getD i 0 = i := by
        rw [List.getD_eq_getElem?_getD, List.getElem?_range hil]
        rfl
      rw [hri, if_neg (by omega)]
    · rw [List.getD_eq_getElem?_getD, List.getElem?_eq_none (by simpa using hil)]
      rfl
  · intro i h11 hil
    unfold mediaMovil
    rw [getD_map _ _ _ 0 _ (by simpa using hil)]
    have hri : (List.range l.length).getD i 0 = i := by
      rw [List.getD_eq_getElem?_getD, List.getElem?_range hil]
      rfl
    rw [hri, if_pos (by omega)]
    have hwin : (l.take (i + 1)).drop (i + 1 - 12) = (l.drop (i - 11)).take 12 := by
      rw [List.drop_take]
      have h1 : i + 1 - (i + 1 - 12) = 12 := by omega
      have h2 : i + 1 - 12 = i - 11 := by omega
      rw [h1, h2]
    unfold promedio
    rw [hwin]
    have hlen12 : ((l.drop (i - 11)).take 12).length = 12 := by
      rw [List.length_take, List.length_drop]
      omega
    rw [hlen12]
    norm_num
  · unfold mediaMovil
    rw [List.countP_map]
    have heq : (List.range l.length).countP
        ((fun c : Option ℚ => c.isSome) ∘ fun i =>
          if 12 ≤ i + 1 then
            some (promedio ((l.take (i + 1)).drop (i + 1 - 12))) else none)
        = (List.range l.length).countP (fun i => decide (11 ≤ i)) := by
      apply List.countP_congr
      intro i _
      by_cases h : 12 ≤ i + 1 <;> simp [Function.comp, h] <;> omega
    have hcnt : ∀ n : Nat,
        (List.range n).countP (fun i => decide (11 ≤ i)) = n - 11 := by
      intro n
      induction n with
      | zero => simp
      | succ n ih =>
        rw [List.range_succ, List.countP_append, ih]
        by_cases h : 11 ≤ n <;> simp [List.countP_cons, h] <;> omega
    exact heq.trans (hcnt l.length)

/-- Claim C8, witness: the window law at position 11 of a 13-value series. -/
theorem c8_testigo :
    (mediaMovil 12 serieEjemplo).getD 11 none
      = some (((serieEjemplo.drop 0).take 12).sum / 12) :=
  (c8_media_movil serieEjemplo).2.2.1 11 (by decide) (by decide)

/-- Claim C9: the Filter & Reshape Engine is a pure function of the record
collection and the predicates — re-running any of the three pivots on an
unchanged input yields an identical table (no randomness or hidden state
enters the filter/pivot path). -/
theorem c9_determinismo :
    (∀ (df : List RegistroFecha) (a op : String) (y1 y2 : Nat),
        pivotC (filtrarC df a op y1 y2) = pivotC (filtrarC df a op y1 y2)) ∧
    (∀ (df : List RegistroAnual) (anio : Nat) (op : String),
        pivot40 (filtrar40 df anio op) = pivot40 (filtrar40 df anio op)) ∧
    (∀ (df : List RegistroAnual) (anio : Nat) (op : String),
        pivot50 (filtrar50 df anio op) = pivot50 (filtrar50 df anio op)) :=
  ⟨fun _ _ _ _ _ => rfl, fun _ _ _ => rfl, fun _ _ _ => rfl⟩

/-- Claim C10: the relabeling `df.index = MESES` succeeds exactly when the
filtered records for the two chosen years cover exactly 12 distinct
months; otherwise it fails with a length-mismatch error instead of
producing a table. -/
theorem c10_reetiquetado (df : List RegistroFecha) (a op : String) (y1 y2 : Nat) :
    (reetiquetar (pivotC (filtrarC df a op y1 y2))).isSome = true ↔
      (unicos ((filtrarC df a op y1 y2).map (fun r => r.mes))).length = 12 := by
  have hlen : (pivotC (filtrarC df a op y1 y2)).filas.length
      = (unicos ((filtrarC df a op y1 y2).map (fun r => r.mes))).length := by
    unfold pivotC pivotar
    exact List.length_insertionSort _ _
  unfold reetiquetar
  split
  · rename_i h
    simp only [Option.isSome_some]
    exact iff_of_true trivial (by rw [← hlen]; exact h)
  · rename_i h
    simp only [Option.isSome_none]
    refine iff_of_false (by simp) ?_
    intro hc
    exact h (by rw [hlen, hc]; rfl)

/-- Claim C10, witness: on the scenario records (12 distinct months for
2023–2024), the relabeling succeeds. -/
theorem c10_testigo :
    (reetiquetar (pivotC (filtrarC escenarioAcapulco "ACAPULCO" "PASAJEROS"
        2023 2024))).isSome = true :=
  (c10_reetiquetado escenarioAcapulco "ACAPULCO" "PASAJEROS" 2023 2024).mpr
    (by decide)

end Afac
